import Mathlib

/-!
Verification development for the date-format inference and conversion engine
of the repository (src/src/utils/date_utils.py).

The Python code is shallowly embedded over `List Char`:
* `datetime.strptime` at the fixed format strings used by the code is embedded
  by direct translation of CPython's `_strptime` directive regexes
  (`%d` = `3[01]|[12]\d|0[1-9]|[1-9]`, `%m` = `1[0-2]|0[1-9]|[1-9]`,
  `%Y` = `\d\d\d\d`), followed by the `datetime` constructor's validity check.
* `strftime` at the fixed patterns `%m/%d/%Y`, `%d/%m/%Y`, `%Y-%m-%d` is
  embedded by zero-padded 2-digit rendering for `%m`/`%d` and unpadded decimal
  rendering for `%Y` (glibc behaviour; years are at most 9999 by the
  `datetime` invariant).
* the `dateutil.parser.parse` fallback (an external library dependency, not
  part of this repository) is modelled on the restricted input slice the
  claims exercise: strings splitting into exactly three non-empty all-digit
  groups of at most four digits; every other input is modelled as a parse
  failure.  The model follows dateutil's `_ymd.resolve_ymd` (no month names,
  `yearfirst=False`) and `parserinfo.convertyear` with reference year 2026.
* exceptions are modelled by `Option`: `none` is a raised error.
-/

/-- Character for a decimal digit value. -/
def digitChar (n : Nat) : Char := Char.ofNat (48 + n)

/-- Numeric value of a decimal digit character. -/
def digitVal (c : Char) : Nat := c.toNat - 48

/-- Fuel-driven decimal rendering (little core of `Nat` to decimal chars). -/
def decChars : Nat → Nat → List Char
  | 0, _ => []
  | fuel + 1, n =>
    if n < 10 then [digitChar n] else decChars fuel (n / 10) ++ [digitChar (n % 10)]

/-- Decimal rendering of a natural number, as produced by C `printf`/glibc
`strftime %Y`: unpadded, most significant digit first. -/
def natToChars (n : Nat) : List Char := decChars (n + 1) n

/-- `strftime` 2-digit zero padded field (`%m`, `%d`). -/
def pad2 (n : Nat) : List Char := if n < 10 then '0' :: natToChars n else natToChars n

/-- Value of an all-digit string (used to state claims about extracted fields). -/
def strVal (s : List Char) : Nat := s.foldl (fun a c => 10 * a + digitVal c) 0

/-- Value of a non-empty all-digit string, `none` otherwise. -/
def digitsVal (s : List Char) : Option Nat :=
  if s ≠ [] ∧ s.all Char.isDigit then some (strVal s) else none

/-- Python `int()` on a string: optional sign followed by decimal digits
(whitespace and underscore tolerance of `int()` are not modelled; no input
reaching `int()` in this code contains them).  `none` models `ValueError`. -/
def pyInt (s : List Char) : Option Int :=
  match s with
  | '+' :: ds => (digitsVal ds).map (fun n => (n : Int))
  | '-' :: ds => (digitsVal ds).map (fun n => -(n : Int))
  | ds => (digitsVal ds).map (fun n => (n : Int))

/-- `re.split(r"[/\-\.]", s)`: split on every occurrence of `/`, `-` or `.`,
keeping empty pieces. -/
def splitSeps : List Char → List (List Char)
  | [] => [[]]
  | c :: rest =>
    if c = '/' ∨ c = '-' ∨ c = '.' then [] :: splitSeps rest
    else
      match splitSeps rest with
      | g :: gs => (c :: g) :: gs
      | [] => [[c]]

/-- A calendar date as carried by a Python `datetime` with zero time-of-day. -/
structure DT where
  year : Nat
  month : Nat
  day : Nat
deriving DecidableEq, Repr

/-- The `"MDY"` / `"DMY"` string literals used as format hints and page
formats in the source. -/
inductive Hint where
  | MDY : Hint
  | DMY : Hint
deriving DecidableEq, Repr

/-- The three display conventions exercised through `format_for_display`
(strftime patterns `%m/%d/%Y`, `%d/%m/%Y`, `%Y-%m-%d`). -/
inductive Fmt3 where
  | MonthFirst : Fmt3
  | DayFirst : Fmt3
  | ISO : Fmt3
deriving DecidableEq, Repr

/-- Gregorian leap year, as in Python's `calendar`/`datetime`. -/
def isLeap (y : Nat) : Bool := y % 4 = 0 ∧ (y % 100 ≠ 0 ∨ y % 400 = 0)

/-- Days in a month, as validated by the `datetime` constructor. -/
def daysInMonth (y m : Nat) : Nat :=
  if m = 2 then (if isLeap y then 29 else 28)
  else if m = 4 ∨ m = 6 ∨ m = 9 ∨ m = 11 then 30
  else 31

/-- The `datetime(year, month, day)` constructor: validates
`MINYEAR ≤ year ≤ MAXYEAR`, `1 ≤ month ≤ 12`, `1 ≤ day ≤ days_in_month`.
`none` models the raised `ValueError`. -/
def mkPyDate (y m d : Nat) : Option DT :=
  if 1 ≤ y ∧ y ≤ 9999 ∧ 1 ≤ m ∧ m ≤ 12 ∧ 1 ≤ d ∧ d ≤ daysInMonth y m then
    some ⟨y, m, d⟩
  else none

/-- `datetime` comparison restricted to zero time-of-day: lexicographic on
(year, month, day). -/
def dtLe (x y : DT) : Bool :=
  decide (x.year < y.year ∨ (x.year = y.year ∧
    (x.month < y.month ∨ (x.month = y.month ∧ x.day ≤ y.day))))

/-- `strptime` directive `%d` (CPython regex `3[01]|[12]\d|0[1-9]|[1-9]`). -/
def stD : List Char → Option (Nat × List Char)
  | [] => none
  | c1 :: rest =>
    match rest with
    | c2 :: r2 =>
      if c1 = '3' ∧ (c2 = '0' ∨ c2 = '1') then some (30 + digitVal c2, r2)
      else if (c1 = '1' ∨ c1 = '2') ∧ c2.isDigit then
        some (digitVal c1 * 10 + digitVal c2, r2)
      else if c1 = '0' ∧ c2.isDigit ∧ c2 ≠ '0' then some (digitVal c2, r2)
      else if c1.isDigit ∧ c1 ≠ '0' then some (digitVal c1, rest)
      else none
    | [] => if c1.isDigit ∧ c1 ≠ '0' then some (digitVal c1, []) else none

/-- `strptime` directive `%m` (CPython regex `1[0-2]|0[1-9]|[1-9]`). -/
def stM : List Char → Option (Nat × List Char)
  | [] => none
  | c1 :: rest =>
    match rest with
    | c2 :: r2 =>
      if c1 = '1' ∧ (c2 = '0' ∨ c2 = '1' ∨ c2 = '2') then some (10 + digitVal c2, r2)
      else if c1 = '0' ∧ c2.isDigit ∧ c2 ≠ '0' then some (digitVal c2, r2)
      else if c1.isDigit ∧ c1 ≠ '0' then some (digitVal c1, rest)
      else none
    | [] => if c1.isDigit ∧ c1 ≠ '0' then some (digitVal c1, []) else none

/-- `strptime` directive `%Y` (CPython regex `\d\d\d\d`: exactly four digits). -/
def stY : List Char → Option (Nat × List Char)
  | c1 :: c2 :: c3 :: c4 :: r =>
    if c1.isDigit ∧ c2.isDigit ∧ c3.isDigit ∧ c4.isDigit then
      some (((digitVal c1 * 10 + digitVal c2) * 10 + digitVal c3) * 10 + digitVal c4, r)
    else none
  | _ => none

/-- A literal separator character in a `strptime` format string. -/
def litSep (c : Char) : List Char → Option (List Char)
  | x :: r => if x = c then some r else none
  | [] => none

/-- `datetime.strptime(s, "%Y-%m-%d")`. -/
def spYMDdash (cs : List Char) : Option DT := do
  let (y, r1) ← stY cs
  let r2 ← litSep '-' r1
  let (m, r3) ← stM r2
  let r4 ← litSep '-' r3
  let (d, r5) ← stD r4
  if r5 = [] then mkPyDate y m d else none

/-- `datetime.strptime(s, "%d/%m/%Y")`. -/
def spDMYslash (cs : List Char) : Option DT := do
  let (d, r1) ← stD cs
  let r2 ← litSep '/' r1
  let (m, r3) ← stM r2
  let r4 ← litSep '/' r3
  let (y, r5) ← stY r4
  if r5 = [] then mkPyDate y m d else none

/-- `datetime.strptime(s, "%m/%d/%Y")`. -/
def spMDYslash (cs : List Char) : Option DT := do
  let (m, r1) ← stM cs
  let r2 ← litSep '/' r1
  let (d, r3) ← stD r2
  let r4 ← litSep '/' r3
  let (y, r5) ← stY r4
  if r5 = [] then mkPyDate y m d else none

/-- `datetime.strptime(s, "%Y/%m/%d")`. -/
def spYMDslash (cs : List Char) : Option DT := do
  let (y, r1) ← stY cs
  let r2 ← litSep '/' r1
  let (m, r3) ← stM r2
  let r4 ← litSep '/' r3
  let (d, r5) ← stD r4
  if r5 = [] then mkPyDate y m d else none

/-- `datetime.strptime(s, "%d-%m-%Y")`. -/
def spDMYdash (cs : List Char) : Option DT := do
  let (d, r1) ← stD cs
  let r2 ← litSep '-' r1
  let (m, r3) ← stM r2
  let r4 ← litSep '-' r3
  let (y, r5) ← stY r4
  if r5 = [] then mkPyDate y m d else none

/-- `datetime.strptime(s, "%m-%d-%Y")`. -/
def spMDYdash (cs : List Char) : Option DT := do
  let (m, r1) ← stM cs
  let r2 ← litSep '-' r1
  let (d, r3) ← stD r2
  let r4 ← litSep '-' r3
  let (y, r5) ← stY r4
  if r5 = [] then mkPyDate y m d else none

/-- `re.match(r'^\d{4}-\d{2}-\d{2}$', s)`: the strict ISO shape test of
`parse_date`'s fast path. -/
def isoRegexMatch : List Char → Bool
  | [a, b, c, d, s1, e, f, s2, g, h] =>
    a.isDigit && b.isDigit && c.isDigit && d.isDigit && s1 = '-' &&
    e.isDigit && f.isDigit && s2 = '-' && g.isDigit && h.isDigit
  | _ => false

/-- `parserinfo.convertyear` of the external dateutil library: a year below
100 without an explicit century is shifted into the century window centred on
the current year (reference year 2026 here; the library uses the wall clock). -/
def duConvertYear (year : Nat) (centurySpecified : Bool) : Nat :=
  if year < 100 ∧ ¬centurySpecified then
    let y := year + 2000
    if max y 2026 - min y 2026 ≥ 50 then (if y < 2026 then y + 100 else y - 100) else y
  else year

/-- `_ymd.resolve_ymd` of the external dateutil library, specialised to three
purely numeric members (no month name, so `mstridx` is unset) and
`yearfirst=False`.  `l1 l2 l3` are the digit counts of the three tokens; a
token longer than two digits is labelled as a certain year (`ystridx`).
Returns `(year, month, day)`. -/
def duResolve (v1 v2 v3 l1 l2 l3 : Nat) (dayfirst : Bool) : Nat × Nat × Nat :=
  let ystridx0 : Bool := l1 > 2 ∧ l2 ≤ 2 ∧ l3 ≤ 2
  if v1 > 31 ∨ ystridx0 then
    if dayfirst ∧ v3 ≤ 12 then (v1, v3, v2) else (v1, v2, v3)
  else if v1 > 12 ∨ (dayfirst ∧ v2 ≤ 12) then (v3, v2, v1)
  else (v3, v1, v2)

/-- Model of `dateutil.parser.parse(s, dayfirst=...)` — an external library
dependency of the repository (its source is not under src/) — restricted to
the slice of inputs this development evaluates it on: strings splitting into
exactly three non-empty all-digit groups of at most four digits each.  Such a
string tokenises to three numeric YMD members, which are resolved by
`duResolve`, century-adjusted by `duConvertYear`, and validated by the
`datetime` constructor.  Any other input is modelled as a parse failure
(which is the library's true behaviour on the concrete strings the claims
evaluate, e.g. `"not-a-date"`). -/
def dateutilNumeric3 (cs : List Char) (dayfirst : Bool) : Option DT :=
  match splitSeps cs with
  | [t1, t2, t3] =>
    if (t1 ≠ [] ∧ t1.all Char.isDigit ∧ t1.length ≤ 4) ∧
       (t2 ≠ [] ∧ t2.all Char.isDigit ∧ t2.length ≤ 4) ∧
       (t3 ≠ [] ∧ t3.all Char.isDigit ∧ t3.length ≤ 4) then
      let centurySpecified : Bool := t1.length > 2 ∨ t2.length > 2 ∨ t3.length > 2
      let r := duResolve (strVal t1) (strVal t2) (strVal t3)
          t1.length t2.length t3.length dayfirst
      mkPyDate (duConvertYear r.1 centurySpecified) r.2.1 r.2.2
    else none
  | _ => none

/-- `DateFormatDetector.parse_date(date_str, format_hint)`: the strict ISO
fast path, then the explicit `strptime` chain `["%Y-%m-%d", "%d/%m/%Y",
"%m/%d/%Y", "%Y/%m/%d"]`, then the dateutil fallback with `dayfirst` taken
from the hint or guessed from the first split field.  `none` models a raised
exception. -/
def parse_date (cs : List Char) (format_hint : Option Hint) : Option DT :=
  if isoRegexMatch cs then spYMDdash cs
  else match spYMDdash cs with
  | some d => some d
  | none =>
  match spDMYslash cs with
  | some d => some d
  | none =>
  match spMDYslash cs with
  | some d => some d
  | none =>
  match spYMDslash cs with
  | some d => some d
  | none =>
    match format_hint with
    | some h => dateutilNumeric3 cs (h = Hint.DMY)
    | none =>
      match splitSeps cs with
      | [p1, _, _] =>
        match pyInt p1 with
        | some first => dateutilNumeric3 cs (first > 12)
        | none => none
      | _ => dateutilNumeric3 cs false

/-- `dt.strftime("%m/%d/%Y")`. -/
def fmtMDY (d : DT) : List Char :=
  pad2 d.month ++ '/' :: (pad2 d.day ++ '/' :: natToChars d.year)

/-- `dt.strftime("%d/%m/%Y")`. -/
def fmtDMY (d : DT) : List Char :=
  pad2 d.day ++ '/' :: (pad2 d.month ++ '/' :: natToChars d.year)

/-- `dt.strftime("%Y-%m-%d")`. -/
def fmtISO (d : DT) : List Char :=
  natToChars d.year ++ '-' :: (pad2 d.month ++ '-' :: pad2 d.day)

/-- `DateFormatDetector.format_for_display(dt, format)` at the three strftime
patterns the spec's DateFormatter names: `%m/%d/%Y` (MonthFirst, the source's
default argument), `%d/%m/%Y` (DayFirst), `%Y-%m-%d` (ISO). -/
def format_for_display (d : DT) : Fmt3 → List Char
  | Fmt3.MonthFirst => fmtMDY d
  | Fmt3.DayFirst => fmtDMY d
  | Fmt3.ISO => fmtISO d

/-- `DateFormatDetector.format_for_api(date_str)`: parse with no hint, render
as `%Y-%m-%d`.  `none` models the propagated parse exception. -/
def format_for_api (cs : List Char) : Option (List Char) :=
  (parse_date cs none).map fmtISO

/-- `DateFormatDetector.to_page_format(date_str, format)`: try the strptime
chain `["%d/%m/%Y", "%m/%d/%Y", "%Y-%m-%d", "%d-%m-%Y", "%m-%d-%Y"]`, else
dateutil with `dayfirst = (format == "DMY")`; on any parse failure the bare
`except` returns the input string unchanged; on success render as
`%m/%d/%Y` (MDY) or `%d/%m/%Y` (DMY). -/
def to_page_format (cs : List Char) (format : Hint) : List Char :=
  let parsed : Option DT :=
    match spDMYslash cs with
    | some d => some d
    | none =>
    match spMDYslash cs with
    | some d => some d
    | none =>
    match spYMDdash cs with
    | some d => some d
    | none =>
    match spDMYdash cs with
    | some d => some d
    | none =>
    match spMDYdash cs with
    | some d => some d
    | none => dateutilNumeric3 cs (format = Hint.DMY)
  match parsed with
  | none => cs
  | some dt => match format with
    | Hint.MDY => fmtMDY dt
    | Hint.DMY => fmtDMY dt

/-- `DateRangeHelper.parse_range(start_str, end_str)`: both boundaries parsed
by `parse_date` with no hint. -/
def parse_range (startCs endCs : List Char) : Option (DT × DT) :=
  match parse_date startCs none, parse_date endCs none with
  | some s, some e => some (s, e)
  | _, _ => none

/-- `DateRangeHelper.is_date_in_range(date_str, start_str, end_str)`:
parse all three with no hint, then `start <= date <= end` under `datetime`
comparison.  `none` models a propagated parse exception. -/
def is_date_in_range (dateCs startCs endCs : List Char) : Option Bool :=
  match parse_date dateCs none with
  | none => none
  | some date =>
    match parse_range startCs endCs with
    | none => none
    | some (s, e) => some (dtLe s date && dtLe date e)

/-- `DateRangeHelper.format_range_for_api(start_str, end_str)`. -/
def format_range_for_api (startCs endCs : List Char) : Option (List Char × List Char) :=
  match format_for_api startCs, format_for_api endCs with
  | some a, some b => some (a, b)
  | _, _ => none

/-- The date-analysis loop of `DateFormatDetector.detect_page_date_format`
(lines 62–78), taken after the page-scraping collaborator has supplied the
extracted date strings `dates_found`: split each on `/`, `-`, `.`; on exactly
three parts convert all three with `int()` (a conversion failure raises,
modelled as `none`); the first part `> 12` returns `"DMY"` immediately, else a
second part `> 12` returns `"MDY"` immediately; exhaustion returns the
default `"MDY"`. -/
def detect_from_found : List (List Char) → Option Hint
  | [] => some Hint.MDY
  | s :: rest =>
    match splitSeps s with
    | [p1, p2, p3] =>
      match pyInt p1, pyInt p2, pyInt p3 with
      | some first, some second, some _ =>
        if first > 12 then some Hint.DMY
        else if second > 12 then some Hint.MDY
        else detect_from_found rest
      | _, _, _ => none
    | _ => detect_from_found rest

/-- The shapes in which a 1- or 2-digit numeric date field with value `n`
can appear in the date strings under consideration: the plain decimal
rendering, or (for values below 10) the zero-padded two-digit rendering. -/
def Rep2 (s : List Char) (n : Nat) : Prop :=
  (n < 10 ∧ (s = [digitChar n] ∨ s = ['0', digitChar n])) ∨
  (10 ≤ n ∧ n ≤ 99 ∧ s = [digitChar (n / 10), digitChar (n % 10)])

instance (s : List Char) (n : Nat) : Decidable (Rep2 s n) := by
  unfold Rep2; infer_instance

/-- The invariant of every constructed Python `datetime`:
`MINYEAR ≤ year ≤ MAXYEAR` and a valid month/day. -/
def PyValid (d : DT) : Prop :=
  1 ≤ d.year ∧ d.year ≤ 9999 ∧ 1 ≤ d.month ∧ d.month ≤ 12 ∧
  1 ≤ d.day ∧ d.day ≤ daysInMonth d.year d.month

instance (d : DT) : Decidable (PyValid d) := by
  unfold PyValid; infer_instance

/-- The spec's CalendarDate invariant: a valid calendar date with a
four-digit Gregorian year. -/
def ValidDate (d : DT) : Prop := 1000 ≤ d.year ∧ PyValid d

instance (d : DT) : Decidable (ValidDate d) := by
  unfold ValidDate; infer_instance

/-- The slash-separated three-field date string `sa/sb/sy`. -/
def sl3 (sa sb sy : List Char) : List Char := sa ++ '/' :: (sb ++ '/' :: sy)

/-- A non-empty all-digit string. -/
def DigitStr (s : List Char) : Prop := s ≠ [] ∧ s.all Char.isDigit = true

instance (s : List Char) : Decidable (DigitStr s) := by
  unfold DigitStr; infer_instance

/-- An extracted date sample, as seen by the detector loop: it splits on
`/`, `-`, `.` into exactly three all-digit fields, the first two having
values `a` and `b`. -/
def SampleTriple (s : List Char) (a b : Nat) : Prop :=
  ∃ p1 p2 p3, splitSeps s = [p1, p2, p3] ∧
    DigitStr p1 ∧ DigitStr p2 ∧ DigitStr p3 ∧ strVal p1 = a ∧ strVal p2 = b

theorem digitChar_isDigit (n : Nat) (h : n ≤ 9) : (digitChar n).isDigit = true := by
  interval_cases n <;> decide

theorem digitVal_digitChar (n : Nat) (h : n ≤ 9) : digitVal (digitChar n) = n := by
  interval_cases n <;> decide

theorem decChars_fuel (f1 : Nat) :
    ∀ f2 n, n < f1 → n < f2 → decChars f1 n = decChars f2 n := by
  induction f1 with
  | zero => intro f2 n h1 _; omega
  | succ f ih =>
    intro f2 n h1 h2
    cases f2 with
    | zero => omega
    | succ g =>
      simp only [decChars]
      by_cases hn : n < 10
      · simp [hn]
      · rw [if_neg hn, if_neg hn]
        have hlt : n / 10 < n := Nat.div_lt_self (by omega) (by omega)
        rw [ih g (n / 10) (by omega) (by omega)]

theorem natToChars_lt10 (n : Nat) (h : n < 10) : natToChars n = [digitChar n] := by
  unfold natToChars
  simp [decChars, h]

theorem natToChars_step (n : Nat) (h : 10 ≤ n) :
    natToChars n = natToChars (n / 10) ++ [digitChar (n % 10)] := by
  have hlt : n / 10 < n := Nat.div_lt_self (by omega) (by omega)
  show decChars (n + 1) n = _
  rw [show decChars (n + 1) n
      = if n < 10 then [digitChar n] else decChars n (n / 10) ++ [digitChar (n % 10)] from rfl]
  rw [if_neg (by omega), decChars_fuel n (n / 10 + 1) (n / 10) (by omega) (by omega)]
  rfl

theorem natToChars4 (y : Nat) (h1 : 1000 ≤ y) (h2 : y ≤ 9999) :
    natToChars y = [digitChar (y / 1000), digitChar (y / 100 % 10),
      digitChar (y / 10 % 10), digitChar (y % 10)] := by
  rw [natToChars_step y (by omega), natToChars_step (y / 10) (by omega),
      natToChars_step (y / 10 / 10) (by omega), natToChars_lt10 (y / 10 / 10 / 10) (by omega)]
  have e2 : y / 10 / 10 / 10 = y / 1000 := by omega
  have e1 : y / 10 / 10 = y / 100 := by omega
  rw [e2, e1]
  rfl

theorem natToChars_len3 (y : Nat) (h2 : y ≤ 999) : (natToChars y).length ≤ 3 := by
  by_cases ha : y < 10
  · rw [natToChars_lt10 y ha]; simp
  · by_cases hb : y < 100
    · rw [natToChars_step y (by omega), natToChars_lt10 (y / 10) (by omega)]; simp
    · rw [natToChars_step y (by omega), natToChars_step (y / 10) (by omega),
          natToChars_lt10 (y / 10 / 10) (by omega)]
      simp

theorem stY_natToChars (y : Nat) (h1 : 1000 ≤ y) (h2 : y ≤ 9999) (r : List Char) :
    stY (natToChars y ++ r) = some (y, r) := by
  have b1 : y / 1000 ≤ 9 := by omega
  have b2 : y / 100 % 10 ≤ 9 := by omega
  have b3 : y / 10 % 10 ≤ 9 := by omega
  have b4 : y % 10 ≤ 9 := by omega
  rw [natToChars4 y h1 h2]
  simp only [List.cons_append, List.nil_append, stY]
  rw [if_pos ⟨digitChar_isDigit _ b1, digitChar_isDigit _ b2,
      digitChar_isDigit _ b3, digitChar_isDigit _ b4⟩]
  rw [digitVal_digitChar _ b1, digitVal_digitChar _ b2,
      digitVal_digitChar _ b3, digitVal_digitChar _ b4]
  have : ((y / 1000 * 10 + y / 100 % 10) * 10 + y / 10 % 10) * 10 + y % 10 = y := by omega
  rw [this]

theorem stY_natToChars_nil (y : Nat) (h1 : 1000 ≤ y) (h2 : y ≤ 9999) :
    stY (natToChars y) = some (y, []) := by
  have h := stY_natToChars y h1 h2 []
  rwa [List.append_nil] at h

theorem pad2_Rep2 (n : Nat) (h : n ≤ 99) : Rep2 (pad2 n) n := by
  unfold pad2 Rep2
  by_cases hn : n < 10
  · rw [if_pos hn, natToChars_lt10 n hn]
    exact Or.inl ⟨hn, Or.inr rfl⟩
  · rw [if_neg hn, natToChars_step n (by omega), natToChars_lt10 (n / 10) (by omega)]
    exact Or.inr ⟨by omega, h, rfl⟩

theorem natToChars_Rep2 (n : Nat) (h : n ≤ 99) : Rep2 (natToChars n) n := by
  unfold Rep2
  by_cases hn : n < 10
  · rw [natToChars_lt10 n hn]
    exact Or.inl ⟨hn, Or.inl rfl⟩
  · rw [natToChars_step n (by omega), natToChars_lt10 (n / 10) (by omega)]
    exact Or.inr ⟨by omega, h, rfl⟩

theorem pad2_pair (n : Nat) (h : n ≤ 99) :
    ∃ c1 c2, pad2 n = [c1, c2] ∧ c1.isDigit = true ∧ c2.isDigit = true := by
  unfold pad2
  by_cases hn : n < 10
  · rw [if_pos hn, natToChars_lt10 n hn]
    exact ⟨'0', digitChar n, rfl, by decide, digitChar_isDigit n (by omega)⟩
  · rw [if_neg hn, natToChars_step n (by omega), natToChars_lt10 (n / 10) (by omega)]
    exact ⟨_, _, rfl, digitChar_isDigit _ (by omega), digitChar_isDigit _ (by omega)⟩

theorem daysInMonth_le31 (y m : Nat) : daysInMonth y m ≤ 31 := by
  unfold daysInMonth
  split_ifs <;> omega

theorem daysInMonth_ge28 (y m : Nat) : 28 ≤ daysInMonth y m := by
  unfold daysInMonth
  split_ifs <;> omega

theorem stD_rep_slash (s : List Char) (n : Nat) (h : Rep2 s n) (h1 : 1 ≤ n) (h2 : n ≤ 31)
    (r : List Char) : stD (s ++ '/' :: r) = some (n, '/' :: r) := by
  rcases h with ⟨hlt, hs | hs⟩ | ⟨hge, hle, hs⟩ <;> subst hs <;> interval_cases n <;> rfl

theorem stD_rep_nil (s : List Char) (n : Nat) (h : Rep2 s n) (h1 : 1 ≤ n) (h2 : n ≤ 31) :
    stD s = some (n, []) := by
  rcases h with ⟨hlt, hs | hs⟩ | ⟨hge, hle, hs⟩ <;> subst hs <;> interval_cases n <;> rfl

theorem stM_rep_slash (s : List Char) (n : Nat) (h : Rep2 s n) (h1 : 1 ≤ n) (h2 : n ≤ 12)
    (r : List Char) : stM (s ++ '/' :: r) = some (n, '/' :: r) := by
  rcases h with ⟨hlt, hs | hs⟩ | ⟨hge, hle, hs⟩ <;> subst hs <;> interval_cases n <;> rfl

theorem stM_rep_dash (s : List Char) (n : Nat) (h : Rep2 s n) (h1 : 1 ≤ n) (h2 : n ≤ 12)
    (r : List Char) : stM (s ++ '-' :: r) = some (n, '-' :: r) := by
  rcases h with ⟨hlt, hs | hs⟩ | ⟨hge, hle, hs⟩ <;> subst hs <;> interval_cases n <;> rfl

theorem stM_big (b : Nat) (h1 : 13 ≤ b) (h2 : b ≤ 31) (r : List Char) :
    stM (digitChar (b / 10) :: digitChar (b % 10) :: r)
      = some (b / 10, digitChar (b % 10) :: r) := by
  interval_cases b <;> rfl

theorem litSep_digit (c : Char) (k : Nat) (hk : k ≤ 9) (hc : c = '/' ∨ c = '-') (r : List Char) :
    litSep c (digitChar k :: r) = none := by
  rcases hc with rfl | rfl <;> interval_cases k <;> rfl

theorem stY_pos2 (c1 c2 : Char) (h : c2.isDigit = false) (r : List Char) :
    stY (c1 :: c2 :: r) = none := by
  rcases r with _ | ⟨c3, _ | ⟨c4, r'⟩⟩
  · rfl
  · rfl
  · simp only [stY]
    rw [if_neg]
    rintro ⟨-, hh, -⟩
    rw [h] at hh
    exact absurd hh (by decide)

theorem stY_pos3 (c1 c2 c3 : Char) (h : c3.isDigit = false) (r : List Char) :
    stY (c1 :: c2 :: c3 :: r) = none := by
  rcases r with _ | ⟨c4, r'⟩
  · rfl
  · simp only [stY]
    rw [if_neg]
    rintro ⟨-, -, hh, -⟩
    rw [h] at hh
    exact absurd hh (by decide)

theorem stY_short (s : List Char) (h : s.length ≤ 3) : stY s = none := by
  rcases s with _ | ⟨c1, _ | ⟨c2, _ | ⟨c3, _ | ⟨c4, r⟩⟩⟩⟩
  · rfl
  · rfl
  · rfl
  · rfl
  · simp at h

theorem digit_not_sep (c : Char) (h : c.isDigit = true) : ¬(c = '/' ∨ c = '-' ∨ c = '.') := by
  rintro (rfl | rfl | rfl) <;> exact absurd h (by decide)

theorem splitSeps_nosep (s : List Char) (h : ∀ c ∈ s, ¬(c = '/' ∨ c = '-' ∨ c = '.')) :
    splitSeps s = [s] := by
  induction s with
  | nil => rfl
  | cons c rest ih =>
    simp only [splitSeps]
    rw [if_neg (h c (by simp)), ih (fun c' hc' => h c' (by simp [hc']))]

theorem splitSeps_sep_append (s t : List Char) (sep1 : Char)
    (hsep : sep1 = '/' ∨ sep1 = '-' ∨ sep1 = '.')
    (h : ∀ c ∈ s, ¬(c = '/' ∨ c = '-' ∨ c = '.')) :
    splitSeps (s ++ sep1 :: t) = s :: splitSeps t := by
  induction s with
  | nil =>
    simp only [List.nil_append, splitSeps]
    rw [if_pos hsep]
  | cons c rest ih =>
    simp only [List.cons_append, splitSeps, List.append_eq]
    rw [if_neg (h c (by simp)), ih (fun c' hc' => h c' (by simp [hc']))]

theorem isoRegex_slash (s : List Char) (h : '/' ∈ s) : isoRegexMatch s = false := by
  unfold isoRegexMatch
  split
  · next a b c d s1 e f s2 g hh =>
    simp only [List.mem_cons, List.not_mem_nil, or_false] at h
    rcases h with rfl | rfl | rfl | rfl | rfl | rfl | rfl | rfl | rfl | rfl <;>
      simp [show ('/' : Char).isDigit = false from by decide,
        show ('/' : Char) ≠ '-' from by decide]
  · rfl

theorem mkPyDate_eq (y m d : Nat)
    (h : 1 ≤ y ∧ y ≤ 9999 ∧ 1 ≤ m ∧ m ≤ 12 ∧ 1 ≤ d ∧ d ≤ daysInMonth y m) :
    mkPyDate y m d = some ⟨y, m, d⟩ := by
  unfold mkPyDate
  rw [if_pos h]

theorem mkPyDate_some (y m dd : Nat) (d : DT) (h : mkPyDate y m dd = some d) :
    d = ⟨y, m, dd⟩ ∧ PyValid d := by
  unfold mkPyDate at h
  split at h
  · next hcond =>
    injection h with h
    subst h
    exact ⟨rfl, hcond⟩
  · exact absurd h (by simp)

theorem isoRegex_fmtISO (d : DT) (h : PyValid d) (h4 : 1000 ≤ d.year) :
    isoRegexMatch (fmtISO d) = true := by
  obtain ⟨hy1, hy2, hm1, hm2, hd1, hd2⟩ := h
  obtain ⟨m1, m2, hm, hmd1, hmd2⟩ := pad2_pair d.month (by omega)
  obtain ⟨e1, e2, hd, hdd1, hdd2⟩ :=
    pad2_pair d.day (by have := daysInMonth_le31 d.year d.month; omega)
  have b1 := digitChar_isDigit (d.year / 1000) (by omega)
  have b2 := digitChar_isDigit (d.year / 100 % 10) (by omega)
  have b3 := digitChar_isDigit (d.year / 10 % 10) (by omega)
  have b4 := digitChar_isDigit (d.year % 10) (by omega)
  unfold fmtISO
  rw [natToChars4 d.year h4 hy2, hm, hd]
  simp only [List.cons_append, List.nil_append, isoRegexMatch]
  simp [b1, b2, b3, b4, hmd1, hmd2, hdd1, hdd2]

theorem litSep_cons (c : Char) (r : List Char) : litSep c (c :: r) = some r := by
  simp [litSep]

theorem stY_slash2 (c1 : Char) (r : List Char) : stY (c1 :: '/' :: r) = none :=
  stY_pos2 c1 '/' (by decide) r

theorem stY_slash3 (c1 c2 : Char) (r : List Char) : stY (c1 :: c2 :: '/' :: r) = none :=
  stY_pos3 c1 c2 '/' (by decide) r

theorem spDMYslash_comp (sa sb : List Char) (a b y : Nat)
    (ha : Rep2 sa a) (ha1 : 1 ≤ a) (ha2 : a ≤ 31)
    (hb : Rep2 sb b) (hb1 : 1 ≤ b) (hb2 : b ≤ 12)
    (hy1 : 1000 ≤ y) (hy2 : y ≤ 9999) :
    spDMYslash (sl3 sa sb (natToChars y)) = mkPyDate y b a := by
  unfold sl3 spDMYslash
  rw [stD_rep_slash sa a ha ha1 ha2]
  simp [litSep_cons, stM_rep_slash sb b hb hb1 hb2, stY_natToChars_nil y hy1 hy2]

theorem spMDYslash_comp (sa sb : List Char) (a b y : Nat)
    (ha : Rep2 sa a) (ha1 : 1 ≤ a) (ha2 : a ≤ 12)
    (hb : Rep2 sb b) (hb1 : 1 ≤ b) (hb2 : b ≤ 31)
    (hy1 : 1000 ≤ y) (hy2 : y ≤ 9999) :
    spMDYslash (sl3 sa sb (natToChars y)) = mkPyDate y a b := by
  unfold sl3 spMDYslash
  rw [stM_rep_slash sa a ha ha1 ha2]
  simp [litSep_cons, stD_rep_slash sb b hb hb1 hb2, stY_natToChars_nil y hy1 hy2]

theorem Rep2_big (s : List Char) (n : Nat) (h : Rep2 s n) (h1 : 13 ≤ n) :
    s = [digitChar (n / 10), digitChar (n % 10)] := by
  rcases h with ⟨hlt, -⟩ | ⟨-, -, hs⟩
  · omega
  · exact hs

theorem spDMYslash_bigM (sa sb sy : List Char) (a b : Nat)
    (ha : Rep2 sa a) (ha1 : 1 ≤ a) (ha2 : a ≤ 31)
    (hb : Rep2 sb b) (hb1 : 13 ≤ b) (hb2 : b ≤ 31) :
    spDMYslash (sl3 sa sb sy) = none := by
  rw [Rep2_big sb b hb hb1]
  unfold sl3 spDMYslash
  rw [stD_rep_slash sa a ha ha1 ha2]
  simp only [List.cons_append, List.nil_append]
  simp [litSep_cons, stM_big b hb1 hb2,
    litSep_digit '/' (b % 10) (by omega) (Or.inl rfl)]

theorem spMDYslash_bigFirst (sa sb sy : List Char) (a : Nat)
    (ha : Rep2 sa a) (ha1 : 13 ≤ a) (ha2 : a ≤ 31) :
    spMDYslash (sl3 sa sb sy) = none := by
  rw [Rep2_big sa a ha ha1]
  unfold sl3 spMDYslash
  simp only [List.cons_append, List.nil_append]
  simp [stM_big a ha1 ha2, litSep_digit '/' (a % 10) (by omega) (Or.inl rfl)]

theorem spYMDdash_slashfail (sa t : List Char) (a : Nat) (ha : Rep2 sa a) :
    spYMDdash (sa ++ '/' :: t) = none := by
  rcases ha with ⟨hlt, hs | hs⟩ | ⟨hge, hle, hs⟩ <;> subst hs <;>
    simp [spYMDdash, stY_slash2, stY_slash3]

theorem spYMDslash_slashfail (sa t : List Char) (a : Nat) (ha : Rep2 sa a) :
    spYMDslash (sa ++ '/' :: t) = none := by
  rcases ha with ⟨hlt, hs | hs⟩ | ⟨hge, hle, hs⟩ <;> subst hs <;>
    simp [spYMDslash, stY_slash2, stY_slash3]

theorem spDMYslash_shortY (sa sb sy : List Char) (a b : Nat)
    (ha : Rep2 sa a) (ha1 : 1 ≤ a) (ha2 : a ≤ 31)
    (hb : Rep2 sb b) (hb1 : 1 ≤ b) (hb2 : b ≤ 12)
    (hsy : sy.length ≤ 3) :
    spDMYslash (sl3 sa sb sy) = none := by
  unfold sl3 spDMYslash
  rw [stD_rep_slash sa a ha ha1 ha2]
  simp [litSep_cons, stM_rep_slash sb b hb hb1 hb2, stY_short sy hsy]

theorem spMDYslash_shortY (sa sb sy : List Char) (a b : Nat)
    (ha : Rep2 sa a) (ha1 : 1 ≤ a) (ha2 : a ≤ 12)
    (hb : Rep2 sb b) (hb1 : 1 ≤ b) (hb2 : b ≤ 31)
    (hsy : sy.length ≤ 3) :
    spMDYslash (sl3 sa sb sy) = none := by
  unfold sl3 spMDYslash
  rw [stM_rep_slash sa a ha ha1 ha2]
  simp [litSep_cons, stD_rep_slash sb b hb hb1 hb2, stY_short sy hsy]

theorem pyInt_digits (s : List Char) (h : DigitStr s) : pyInt s = some ((strVal s : Int)) := by
  obtain ⟨hne, hall⟩ := h
  have hval : digitsVal s = some (strVal s) := by
    unfold digitsVal
    rw [if_pos ⟨hne, hall⟩]
  rcases s with _ | ⟨c, rest⟩
  · exact absurd rfl hne
  · have hc : c.isDigit = true := by
      have := List.all_eq_true.mp hall c (by simp)
      simpa using this
    have hplus : c ≠ '+' := by rintro rfl; exact absurd hc (by decide)
    have hminus : c ≠ '-' := by rintro rfl; exact absurd hc (by decide)
    unfold pyInt
    split
    · next heq => simp only [List.cons.injEq] at heq; exact absurd heq.1 hplus
    · next heq => simp only [List.cons.injEq] at heq; exact absurd heq.1 hminus
    · rw [hval]
      rfl

theorem dtLe_iff (x y : DT) : dtLe x y = true ↔
    (x.year < y.year ∨ (x.year = y.year ∧
      (x.month < y.month ∨ (x.month = y.month ∧ x.day ≤ y.day)))) := by
  unfold dtLe
  exact decide_eq_true_iff

theorem dtLe_trans (x y z : DT) (h1 : dtLe x y = true) (h2 : dtLe y z = true) :
    dtLe x z = true := by
  rw [dtLe_iff] at h1 h2 ⊢
  omega

theorem optBind_eq_some {α β : Type} {x : Option α} {f : α → Option β} {b : β} :
    x >>= f = some b ↔ ∃ a, x = some a ∧ f a = some b := by
  cases x <;> simp [Bind.bind, Option.bind]

theorem spYMDdash_pyValid (cs : List Char) (d : DT) (h : spYMDdash cs = some d) :
    PyValid d := by
  unfold spYMDdash at h
  simp only [optBind_eq_some] at h
  obtain ⟨⟨y, r1⟩, -, r2, -, ⟨m, r3⟩, -, r4, -, ⟨dd, r5⟩, -, h⟩ := h
  split at h
  · exact (mkPyDate_some _ _ _ _ h).2
  · exact absurd h (by simp)

theorem spDMYslash_pyValid (cs : List Char) (d : DT) (h : spDMYslash cs = some d) :
    PyValid d := by
  unfold spDMYslash at h
  simp only [optBind_eq_some] at h
  obtain ⟨⟨dd, r1⟩, -, r2, -, ⟨m, r3⟩, -, r4, -, ⟨y, r5⟩, -, h⟩ := h
  split at h
  · exact (mkPyDate_some _ _ _ _ h).2
  · exact absurd h (by simp)

theorem spMDYslash_pyValid (cs : List Char) (d : DT) (h : spMDYslash cs = some d) :
    PyValid d := by
  unfold spMDYslash at h
  simp only [optBind_eq_some] at h
  obtain ⟨⟨m, r1⟩, -, r2, -, ⟨dd, r3⟩, -, r4, -, ⟨y, r5⟩, -, h⟩ := h
  split at h
  · exact (mkPyDate_some _ _ _ _ h).2
  · exact absurd h (by simp)

theorem spYMDslash_pyValid (cs : List Char) (d : DT) (h : spYMDslash cs = some d) :
    PyValid d := by
  unfold spYMDslash at h
  simp only [optBind_eq_some] at h
  obtain ⟨⟨y, r1⟩, -, r2, -, ⟨m, r3⟩, -, r4, -, ⟨dd, r5⟩, -, h⟩ := h
  split at h
  · exact (mkPyDate_some _ _ _ _ h).2
  · exact absurd h (by simp)

theorem dateutil_pyValid (cs : List Char) (df : Bool) (d : DT)
    (h : dateutilNumeric3 cs df = some d) : PyValid d := by
  unfold dateutilNumeric3 at h
  split at h
  · split at h
    · exact (mkPyDate_some _ _ _ _ h).2
    · exact absurd h (by simp)
  · exact absurd h (by simp)

theorem parse_date_pyValid (cs : List Char) (hint : Option Hint) (d : DT)
    (h : parse_date cs hint = some d) : PyValid d := by
  unfold parse_date at h
  split at h
  · exact spYMDdash_pyValid cs d h
  split at h
  · next d0 heq => injection h with hh; subst hh; exact spYMDdash_pyValid cs _ heq
  split at h
  · next d0 heq => injection h with hh; subst hh; exact spDMYslash_pyValid cs _ heq
  split at h
  · next d0 heq => injection h with hh; subst hh; exact spMDYslash_pyValid cs _ heq
  split at h
  · next d0 heq => injection h with hh; subst hh; exact spYMDslash_pyValid cs _ heq
  split at h
  · exact dateutil_pyValid _ _ _ h
  split at h
  · split at h
    · exact dateutil_pyValid _ _ _ h
    · exact absurd h (by simp)
  · exact dateutil_pyValid _ _ _ h

theorem spYMDdash_fmtISO (d : DT) (h : PyValid d) (h4 : 1000 ≤ d.year) :
    spYMDdash (fmtISO d) = some d := by
  obtain ⟨hy1, hy2, hm1, hm2, hd1, hd2⟩ := h
  have hd31 : d.day ≤ 31 := by have := daysInMonth_le31 d.year d.month; omega
  unfold fmtISO spYMDdash
  rw [stY_natToChars d.year h4 hy2]
  simp [litSep_cons, stM_rep_dash (pad2 d.month) d.month (pad2_Rep2 d.month (by omega)) hm1 hm2,
    stD_rep_nil (pad2 d.day) d.day (pad2_Rep2 d.day (by omega)) hd1 hd31,
    mkPyDate_eq d.year d.month d.day ⟨hy1, hy2, hm1, hm2, hd1, hd2⟩]

theorem parse_fmtISO (d : DT) (h : PyValid d) (h4 : 1000 ≤ d.year) (hint : Option Hint) :
    parse_date (fmtISO d) hint = some d := by
  unfold parse_date
  rw [if_pos (by rw [isoRegex_fmtISO d h h4])]
  exact spYMDdash_fmtISO d h h4

theorem fmtDMY_sl3 (d : DT) : fmtDMY d = sl3 (pad2 d.day) (pad2 d.month) (natToChars d.year) :=
  rfl

theorem fmtMDY_sl3 (d : DT) : fmtMDY d = sl3 (pad2 d.month) (pad2 d.day) (natToChars d.year) :=
  rfl

theorem sl3_mem_slash (sa sb sy : List Char) : '/' ∈ sl3 sa sb sy := by
  unfold sl3
  simp

theorem parse_date_viaDMY (cs : List Char) (hint : Option Hint) (d : DT)
    (h1 : isoRegexMatch cs = false) (h2 : spYMDdash cs = none)
    (h3 : spDMYslash cs = some d) :
    parse_date cs hint = some d := by
  unfold parse_date
  simp [h1, h2, h3]

theorem parse_date_viaMDY (cs : List Char) (hint : Option Hint) (d : DT)
    (h1 : isoRegexMatch cs = false) (h2 : spYMDdash cs = none)
    (h3 : spDMYslash cs = none) (h4 : spMDYslash cs = some d) :
    parse_date cs hint = some d := by
  unfold parse_date
  simp [h1, h2, h3, h4]

theorem detect_cons (s : List Char) (rest : List (List Char)) (a b : Nat)
    (h : SampleTriple s a b) :
    detect_from_found (s :: rest) =
      if 12 < a then some Hint.DMY
      else if 12 < b then some Hint.MDY
      else detect_from_found rest := by
  obtain ⟨p1, p2, p3, hsplit, h1, h2, h3, ha, hb⟩ := h
  simp only [detect_from_found, hsplit, pyInt_digits p1 h1, pyInt_digits p2 h2,
    pyInt_digits p3 h3]
  subst ha hb
  by_cases hA : 12 < strVal p1
  · rw [if_pos (by exact_mod_cast hA), if_pos hA]
  · rw [if_neg (by exact_mod_cast hA), if_neg hA]
    by_cases hB : 12 < strVal p2
    · rw [if_pos (by exact_mod_cast hB), if_pos hB]
    · rw [if_neg (by exact_mod_cast hB), if_neg hB]

/-- C2: for every input string `a/b/YYYY` with a four-digit year and both
fields ambiguous (`1 ≤ a ≤ 12`, `1 ≤ b ≤ 12`), `parse_date` returns the
day-first interpretation `(year = YYYY, month = b, day = a)`, and it returns
this same result for every value of `format_hint`: the explicit format table
tries `%d/%m/%Y` before `%m/%d/%Y` and succeeds before any hint is
consulted. -/
theorem C2_ambiguous_dayfirst (sa sb : List Char) (a b y : Nat) (h : Option Hint)
    (ha : Rep2 sa a) (hb : Rep2 sb b) (ha1 : 1 ≤ a) (ha2 : a ≤ 12)
    (hb1 : 1 ≤ b) (hb2 : b ≤ 12) (hy1 : 1000 ≤ y) (hy2 : y ≤ 9999) :
    parse_date (sl3 sa sb (natToChars y)) h = some ⟨y, b, a⟩ := by
  apply parse_date_viaDMY
  · exact isoRegex_slash _ (sl3_mem_slash sa sb (natToChars y))
  · exact spYMDdash_slashfail sa _ a ha
  · rw [spDMYslash_comp sa sb a b y ha ha1 (by omega) hb hb1 hb2 hy1 hy2]
    exact mkPyDate_eq y b a
      ⟨by omega, hy2, hb1, hb2, ha1, by have := daysInMonth_ge28 y b; omega⟩

/-- Witness for C2: the rendered string `01/03/2025` parses to 1 March 2025
(day = 1, month = 3) under the month-first hint. -/
theorem C2_ambiguous_dayfirst_witness :
    sl3 "01".data "03".data (natToChars 2025) = "01/03/2025".data ∧
    parse_date (sl3 "01".data "03".data (natToChars 2025)) (some Hint.MDY)
      = some ⟨2025, 3, 1⟩ :=
  ⟨by decide,
   C2_ambiguous_dayfirst "01".data "03".data 1 3 2025 (some Hint.MDY) (by decide) (by decide)
     (by decide) (by decide) (by decide) (by decide) (by decide) (by decide)⟩

/-- C3 (amended): `format_range_for_api("01/03/2025", "08/03/2025")` returns
`("2025-03-01", "2025-03-08")`: `format_for_api` passes no hint to
`parse_date`, and even with a hint the explicit chain tries `%d/%m/%Y` first,
so `01/03/2025` is read as 1 March 2025 (and `08/03/2025` as 8 March), not as
the month-first dates the claim expects. -/
theorem C3_formatRange_amended :
    format_range_for_api "01/03/2025".data "08/03/2025".data
      = some ("2025-03-01".data, "2025-03-08".data) := by
  decide

/-- Counterexample for C3: the result is not the claimed
`("2025-01-03", "2025-08-03")`. -/
theorem C3_formatRange_counterexample :
    format_range_for_api "01/03/2025".data "08/03/2025".data
      ≠ some ("2025-01-03".data, "2025-08-03".data) := by
  decide

/-- C4: a string exactly matching `^\d{4}-\d{2}-\d{2}$` is parsed by the
strict ISO fast path, identically for every hint; in particular
`parse_date("2025-03-08", h) = (2025, 3, 8)` for every `h`. -/
theorem C4_iso_priority :
    (∀ (cs : List Char) (h : Option Hint), isoRegexMatch cs = true →
      parse_date cs h = spYMDdash cs) ∧
    (∀ h : Option Hint, parse_date "2025-03-08".data h = some ⟨2025, 3, 8⟩) := by
  constructor
  · intro cs h hiso
    unfold parse_date
    rw [if_pos (by rw [hiso])]
  · rintro (_ | (_ | _)) <;> decide

/-- Witness for C4: the fast path fires on `2025-12-31` under a `DMY` hint. -/
theorem C4_iso_priority_witness :
    isoRegexMatch "2025-12-31".data = true ∧
    parse_date "2025-12-31".data (some Hint.DMY) = spYMDdash "2025-12-31".data :=
  ⟨by decide, C4_iso_priority.1 "2025-12-31".data (some Hint.DMY) (by decide)⟩

/-- C10: for every input accepted by `parse_date` whose parsed year has four
digits, re-parsing the API rendering is the identity for every hint:
`format_for_api` renders through `%Y-%m-%d`, which matches the strict ISO
fast path. -/
theorem C10_iso_pivot (cs : List Char) (h : Option Hint) (d : DT)
    (hp : parse_date cs none = some d) (hy : 1000 ≤ d.year) :
    ∃ r, format_for_api cs = some r ∧ parse_date r h = parse_date cs none := by
  have hv : PyValid d := parse_date_pyValid cs none d hp
  refine ⟨fmtISO d, ?_, ?_⟩
  · unfold format_for_api
    rw [hp]
    rfl
  · rw [parse_fmtISO d hv hy h, hp]

/-- Witness for C10: `13/01/2025` parses (day-first, decisive first field) and
its ISO rendering re-parses to the same date under a `DMY` hint. -/
theorem C10_iso_pivot_witness :
    parse_date "13/01/2025".data none = some ⟨2025, 1, 13⟩ ∧
    ∃ r, format_for_api "13/01/2025".data = some r ∧
      parse_date r (some Hint.DMY) = parse_date "13/01/2025".data none :=
  ⟨by decide,
   C10_iso_pivot "13/01/2025".data (some Hint.DMY) ⟨2025, 1, 13⟩ (by decide) (by decide)⟩

/-- C1 (amended): the round trip `parse(format(d, f))` is the identity for
ISO with no hint and for DayFirst with the `DMY` hint; for MonthFirst with the
`MDY` hint it is the identity exactly when `day > 12` or `day = month` —
when `day ≤ 12` the `%d/%m/%Y` attempt succeeds first and returns the
day/month-swapped date, the hint never being consulted. -/
theorem C1_roundtrip_amended :
    (∀ d : DT, ValidDate d →
      parse_date (format_for_display d Fmt3.ISO) none = some d) ∧
    (∀ d : DT, ValidDate d →
      parse_date (format_for_display d Fmt3.DayFirst) (some Hint.DMY) = some d) ∧
    (∀ d : DT, ValidDate d → (12 < d.day ∨ d.day = d.month) →
      parse_date (format_for_display d Fmt3.MonthFirst) (some Hint.MDY) = some d) ∧
    (∀ d : DT, ValidDate d → d.day ≤ 12 →
      parse_date (format_for_display d Fmt3.MonthFirst) (some Hint.MDY)
        = some ⟨d.year, d.day, d.month⟩) := by
  have swap : ∀ d : DT, ValidDate d → d.day ≤ 12 →
      parse_date (format_for_display d Fmt3.MonthFirst) (some Hint.MDY)
        = some ⟨d.year, d.day, d.month⟩ := by
    intro d hv hd12
    obtain ⟨h4, hy1, hy2, hm1, hm2, hd1, hd2⟩ := hv
    show parse_date (fmtMDY d) _ = _
    rw [fmtMDY_sl3]
    apply parse_date_viaDMY
    · exact isoRegex_slash _ (sl3_mem_slash _ _ _)
    · exact spYMDdash_slashfail _ _ d.month (pad2_Rep2 d.month (by omega))
    · rw [spDMYslash_comp _ _ d.month d.day d.year (pad2_Rep2 d.month (by omega)) hm1
        (by omega) (pad2_Rep2 d.day (by omega)) hd1 hd12 h4 hy2]
      exact mkPyDate_eq d.year d.day d.month
        ⟨hy1, hy2, hd1, hd12, hm1, by have := daysInMonth_ge28 d.year d.day; omega⟩
  refine ⟨?_, ?_, ?_, swap⟩
  · intro d hv
    exact parse_fmtISO d hv.2 hv.1 none
  · intro d hv
    obtain ⟨h4, hy1, hy2, hm1, hm2, hd1, hd2⟩ := hv
    have hd31 : d.day ≤ 31 := by have := daysInMonth_le31 d.year d.month; omega
    show parse_date (fmtDMY d) _ = _
    rw [fmtDMY_sl3]
    apply parse_date_viaDMY
    · exact isoRegex_slash _ (sl3_mem_slash _ _ _)
    · exact spYMDdash_slashfail _ _ d.day (pad2_Rep2 d.day (by omega))
    · rw [spDMYslash_comp _ _ d.day d.month d.year (pad2_Rep2 d.day (by omega)) hd1 hd31
        (pad2_Rep2 d.month (by omega)) hm1 hm2 h4 hy2]
      exact mkPyDate_eq d.year d.month d.day ⟨hy1, hy2, hm1, hm2, hd1, hd2⟩
  · intro d hv hcase
    rcases hcase with hbig | heqmd
    · obtain ⟨h4, hy1, hy2, hm1, hm2, hd1, hd2⟩ := hv
      have hd31 : d.day ≤ 31 := by have := daysInMonth_le31 d.year d.month; omega
      show parse_date (fmtMDY d) _ = _
      rw [fmtMDY_sl3]
      apply parse_date_viaMDY
      · exact isoRegex_slash _ (sl3_mem_slash _ _ _)
      · exact spYMDdash_slashfail _ _ d.month (pad2_Rep2 d.month (by omega))
      · exact spDMYslash_bigM _ _ _ d.month d.day (pad2_Rep2 d.month (by omega)) hm1
          (by omega) (pad2_Rep2 d.day (by omega)) (by omega) hd31
      · rw [spMDYslash_comp _ _ d.month d.day d.year (pad2_Rep2 d.month (by omega)) hm1 hm2
          (pad2_Rep2 d.day (by omega)) hd1 hd31 h4 hy2]
        exact mkPyDate_eq d.year d.month d.day ⟨hy1, hy2, hm1, hm2, hd1, hd2⟩
    · have hd12 : d.day ≤ 12 := by rw [heqmd]; exact hv.2.2.2.2.1
      rw [swap d hv hd12]
      obtain ⟨y, m, dd⟩ := d
      simp only at heqmd
      subst heqmd
      rfl

/-- Counterexample for C1: formatting 3 January 2025 as MonthFirst
(`01/03/2025`) and parsing with the `MDY` hint does not return the date. -/
theorem C1_roundtrip_counterexample :
    parse_date (format_for_display ⟨2025, 1, 3⟩ Fmt3.MonthFirst) (some Hint.MDY)
      ≠ some ⟨2025, 1, 3⟩ := by
  decide

/-- Witness for C1 (amended): 15 February 2025 (day 15 > 12) does round-trip
through MonthFirst, and 3 January 2025 comes back day/month-swapped. -/
theorem C1_roundtrip_witness :
    ValidDate ⟨2025, 2, 15⟩ ∧
    parse_date (format_for_display ⟨2025, 2, 15⟩ Fmt3.MonthFirst) (some Hint.MDY)
      = some ⟨2025, 2, 15⟩ ∧
    parse_date (format_for_display ⟨2025, 1, 3⟩ Fmt3.MonthFirst) (some Hint.MDY)
      = some ⟨2025, 3, 1⟩ :=
  ⟨by decide,
   C1_roundtrip_amended.2.2.1 ⟨2025, 2, 15⟩ (by decide) (by decide),
   C1_roundtrip_amended.2.2.2 ⟨2025, 1, 3⟩ (by decide) (by decide)⟩

/-- C5 (amended): an input no strategy can resolve fails `parse_date` with an
error (`not-a-date` raises at `int()` in the fallback guess), and
`format_for_api` / the range helpers propagate that failure — but
`to_page_format` is the exception: its bare `except` catches every parse
failure and returns the input string unchanged. -/
theorem C5_error_propagation_amended :
    parse_date "not-a-date".data none = none ∧
    (∀ (cs : List Char) (f : Hint),
      spDMYslash cs = none → spMDYslash cs = none → spYMDdash cs = none →
      spDMYdash cs = none → spMDYdash cs = none →
      (∀ df : Bool, dateutilNumeric3 cs df = none) →
      to_page_format cs f = cs) := by
  constructor
  · decide
  · intro cs f h1 h2 h3 h4 h5 h6
    unfold to_page_format
    rw [h1, h2, h3, h4, h5, h6]

/-- Counterexample for C5: page-format conversion does fall back to returning
its input unchanged when parsing fails. -/
theorem C5_error_propagation_counterexample :
    parse_date "not-a-date".data none = none ∧
    to_page_format "not-a-date".data Hint.MDY = "not-a-date".data := by
  constructor <;> decide

/-- Witness for C5 (amended): every strategy fails on `not-a-date` and
`to_page_format` returns it unchanged. -/
theorem C5_error_propagation_witness :
    to_page_format "not-a-date".data Hint.MDY = "not-a-date".data :=
  C5_error_propagation_amended.2 "not-a-date".data Hint.MDY (by decide) (by decide)
    (by decide) (by decide) (by decide) (by decide)

/-- C8: for a slash date with a four-digit year where exactly one of the two
leading fields exceeds 12, `parse_date` with no hint makes that field the
day: a decisive first field parses via `%d/%m/%Y`, a decisive second field
fails `%d/%m/%Y` and parses via `%m/%d/%Y`. -/
theorem C8_decisive_field :
    (∀ (sa sb : List Char) (a b y : Nat), Rep2 sa a → Rep2 sb b →
      13 ≤ a → 1 ≤ b → b ≤ 12 → a ≤ daysInMonth y b → 1000 ≤ y → y ≤ 9999 →
      parse_date (sl3 sa sb (natToChars y)) none = some ⟨y, b, a⟩) ∧
    (∀ (sa sb : List Char) (a b y : Nat), Rep2 sa a → Rep2 sb b →
      1 ≤ a → a ≤ 12 → 13 ≤ b → b ≤ daysInMonth y a → 1000 ≤ y → y ≤ 9999 →
      parse_date (sl3 sa sb (natToChars y)) none = some ⟨y, a, b⟩) ∧
    parse_date "13/01/2025".data none = some ⟨2025, 1, 13⟩ ∧
    parse_date "01/13/2025".data none = some ⟨2025, 1, 13⟩ := by
  refine ⟨?_, ?_, by decide, by decide⟩
  · intro sa sb a b y ha hb ha1 hb1 hb2 hvd hy1 hy2
    have ha31 : a ≤ 31 := by have := daysInMonth_le31 y b; omega
    apply parse_date_viaDMY
    · exact isoRegex_slash _ (sl3_mem_slash _ _ _)
    · exact spYMDdash_slashfail sa _ a ha
    · rw [spDMYslash_comp sa sb a b y ha (by omega) ha31 hb hb1 hb2 hy1 hy2]
      exact mkPyDate_eq y b a ⟨by omega, hy2, hb1, hb2, by omega, hvd⟩
  · intro sa sb a b y ha hb ha1 ha2 hb1 hvd hy1 hy2
    have hb31 : b ≤ 31 := by have := daysInMonth_le31 y a; omega
    apply parse_date_viaMDY
    · exact isoRegex_slash _ (sl3_mem_slash _ _ _)
    · exact spYMDdash_slashfail sa _ a ha
    · exact spDMYslash_bigM sa sb _ a b ha ha1 (by omega) hb hb1 hb31
    · rw [spMDYslash_comp sa sb a b y ha ha1 ha2 hb (by omega) hb31 hy1 hy2]
      exact mkPyDate_eq y a b ⟨by omega, hy2, ha1, ha2, by omega, hvd⟩

/-- Witness for C8: the two decisive concrete inputs, as rendered triples. -/
theorem C8_decisive_field_witness :
    sl3 "13".data "01".data (natToChars 2025) = "13/01/2025".data ∧
    parse_date (sl3 "13".data "01".data (natToChars 2025)) none = some ⟨2025, 1, 13⟩ ∧
    parse_date (sl3 "01".data "13".data (natToChars 2025)) none = some ⟨2025, 1, 13⟩ :=
  ⟨by decide,
   C8_decisive_field.1 "13".data "01".data 13 1 2025 (by decide) (by decide) (by decide)
     (by decide) (by decide) (by decide) (by decide) (by decide),
   C8_decisive_field.2.1 "01".data "13".data 1 13 2025 (by decide) (by decide) (by decide)
     (by decide) (by decide) (by decide) (by decide) (by decide)⟩

/-- C9 (amended): every explicit candidate format requires a four-digit year
— a slash date whose year field has at most three digits fails the ISO fast
path and all four `strptime` candidates — but the input then reaches the
dateutil fallback, which does normalize 2-digit years: `01/03/99` is
resolved to 1999-01-03 rather than the whole parse failing. -/
theorem C9_fourdigit_year_amended :
    (∀ (sa sb : List Char) (a b y : Nat), Rep2 sa a → Rep2 sb b →
      1 ≤ a → a ≤ 31 → 1 ≤ b → b ≤ 31 → y ≤ 999 →
      isoRegexMatch (sl3 sa sb (natToChars y)) = false ∧
      spYMDdash (sl3 sa sb (natToChars y)) = none ∧
      spDMYslash (sl3 sa sb (natToChars y)) = none ∧
      spMDYslash (sl3 sa sb (natToChars y)) = none ∧
      spYMDslash (sl3 sa sb (natToChars y)) = none) ∧
    parse_date "01/03/99".data none = some ⟨1999, 1, 3⟩ := by
  refine ⟨?_, by decide⟩
  intro sa sb a b y ha hb ha1 ha2 hb1 hb2 hy
  have hylen : (natToChars y).length ≤ 3 := natToChars_len3 y hy
  refine ⟨isoRegex_slash _ (sl3_mem_slash _ _ _), spYMDdash_slashfail sa _ a ha, ?_, ?_,
    spYMDslash_slashfail sa _ a ha⟩
  · rcases le_or_lt b 12 with hble | hbgt
    · exact spDMYslash_shortY sa sb _ a b ha ha1 ha2 hb hb1 hble hylen
    · exact spDMYslash_bigM sa sb _ a b ha ha1 ha2 hb (by omega) hb2
  · rcases le_or_lt a 12 with hale | hagt
    · exact spMDYslash_shortY sa sb _ a b ha ha1 hale hb hb1 hb2 hylen
    · exact spMDYslash_bigFirst sa sb _ a ha (by omega) ha2

/-- Counterexample for C9: `01/03/99` is resolved (by the dateutil fallback,
with year normalization) to 1999-01-03 instead of failing. -/
theorem C9_fourdigit_year_counterexample :
    parse_date "01/03/99".data none = some ⟨1999, 1, 3⟩ := by
  decide

/-- Witness for C9 (amended): the `01/03/99` shape fails every explicit
candidate format. -/
theorem C9_fourdigit_year_witness :
    sl3 "01".data "03".data (natToChars 99) = "01/03/99".data ∧
    spYMDdash (sl3 "01".data "03".data (natToChars 99)) = none ∧
    spDMYslash (sl3 "01".data "03".data (natToChars 99)) = none ∧
    spMDYslash (sl3 "01".data "03".data (natToChars 99)) = none ∧
    spYMDslash (sl3 "01".data "03".data (natToChars 99)) = none :=
  ⟨by decide,
   (C9_fourdigit_year_amended.1 "01".data "03".data 1 3 99 (by decide) (by decide)
     (by decide) (by decide) (by decide) (by decide) (by decide)).2.1,
   (C9_fourdigit_year_amended.1 "01".data "03".data 1 3 99 (by decide) (by decide)
     (by decide) (by decide) (by decide) (by decide) (by decide)).2.2.1,
   (C9_fourdigit_year_amended.1 "01".data "03".data 1 3 99 (by decide) (by decide)
     (by decide) (by decide) (by decide) (by decide) (by decide)).2.2.2.1,
   (C9_fourdigit_year_amended.1 "01".data "03".data 1 3 99 (by decide) (by decide)
     (by decide) (by decide) (by decide) (by decide) (by decide)).2.2.2.2⟩

/-- C6: the detector loop examines the extracted `(a, b, year)` triples in
order: an empty sample list returns the default `MDY`; the first decisive
triple wins — `a > 12` returns `DMY` immediately and (with `a ≤ 12`)
`b > 12` returns `MDY` immediately, whatever follows; if every triple is
ambiguous it returns the default `MDY`; and on triple-shaped samples it
always returns a hint (never fails). -/
theorem C6_detector :
    detect_from_found [] = some Hint.MDY ∧
    (∀ (pre post : List (List Char)) (s : List Char) (a b : Nat),
      (∀ t ∈ pre, ∃ a' b', SampleTriple t a' b' ∧ a' ≤ 12 ∧ b' ≤ 12) →
      SampleTriple s a b → 12 < a →
      detect_from_found (pre ++ s :: post) = some Hint.DMY) ∧
    (∀ (pre post : List (List Char)) (s : List Char) (a b : Nat),
      (∀ t ∈ pre, ∃ a' b', SampleTriple t a' b' ∧ a' ≤ 12 ∧ b' ≤ 12) →
      SampleTriple s a b → a ≤ 12 → 12 < b →
      detect_from_found (pre ++ s :: post) = some Hint.MDY) ∧
    (∀ l : List (List Char),
      (∀ t ∈ l, ∃ a b, SampleTriple t a b ∧ a ≤ 12 ∧ b ≤ 12) →
      detect_from_found l = some Hint.MDY) ∧
    (∀ l : List (List Char), (∀ t ∈ l, ∃ a b, SampleTriple t a b) →
      (detect_from_found l).isSome = true) := by
  refine ⟨rfl, ?_, ?_, ?_, ?_⟩
  · intro pre post s a b hpre hs ha
    induction pre with
    | nil =>
      rw [List.nil_append, detect_cons s post a b hs, if_pos ha]
    | cons t pre' ih =>
      obtain ⟨a', b', ht, ha', hb'⟩ := hpre t (by simp)
      rw [List.cons_append, detect_cons t _ a' b' ht, if_neg (by omega), if_neg (by omega)]
      exact ih (fun t' ht' => hpre t' (by simp [ht']))
  · intro pre post s a b hpre hs ha hb
    induction pre with
    | nil =>
      rw [List.nil_append, detect_cons s post a b hs, if_neg (by omega), if_pos hb]
    | cons t pre' ih =>
      obtain ⟨a', b', ht, ha', hb'⟩ := hpre t (by simp)
      rw [List.cons_append, detect_cons t _ a' b' ht, if_neg (by omega), if_neg (by omega)]
      exact ih (fun t' ht' => hpre t' (by simp [ht']))
  · intro l hl
    induction l with
    | nil => rfl
    | cons t rest ih =>
      obtain ⟨a, b, ht, ha, hb⟩ := hl t (by simp)
      rw [detect_cons t rest a b ht, if_neg (by omega), if_neg (by omega)]
      exact ih (fun t' ht' => hl t' (by simp [ht']))
  · intro l hl
    induction l with
    | nil => rfl
    | cons t rest ih =>
      obtain ⟨a, b, ht⟩ := hl t (by simp)
      rw [detect_cons t rest a b ht]
      by_cases hA : 12 < a
      · rw [if_pos hA]; rfl
      · rw [if_neg hA]
        by_cases hB : 12 < b
        · rw [if_pos hB]; rfl
        · rw [if_neg hB]
          exact ih (fun t' ht' => hl t' (by simp [ht']))

/-- Witness for C6: an ambiguous sample, then a `DMY`-decisive one, then an
`MDY`-decisive one — the first decisive sample wins. -/
theorem C6_detector_witness :
    detect_from_found ["05/06/2025".data, "13/01/2025".data, "01/13/2025".data]
      = some Hint.DMY :=
  C6_detector.2.1 ["05/06/2025".data] ["01/13/2025".data] "13/01/2025".data 13 1
    (by
      intro t ht
      simp only [List.mem_singleton] at ht
      subst ht
      exact ⟨5, 6, ⟨"05".data, "06".data, "2025".data, by decide, by decide, by decide,
        by decide, by decide, by decide⟩, by decide, by decide⟩)
    ⟨"13".data, "01".data, "2025".data, by decide, by decide, by decide, by decide,
      by decide, by decide⟩
    (by decide)

/-- C7: `is_date_in_range` parses all three strings with no hint and returns
exactly `start ≤ date ≤ end` under lexicographic calendar comparison; it
fails if and only if one of the three inputs fails to parse; it never
validates `start ≤ end`, and a reversed range yields `false` for every date;
`inRange("15/02/2025", "01/01/2025", "28/02/2025")` is true. -/
theorem C7_inRange :
    (∀ (ds ss es : List Char) (d s e : DT),
      parse_date ds none = some d → parse_date ss none = some s →
      parse_date es none = some e →
      is_date_in_range ds ss es = some (dtLe s d && dtLe d e)) ∧
    (∀ ds ss es : List Char,
      is_date_in_range ds ss es = none ↔
        (parse_date ds none = none ∨ parse_date ss none = none ∨
          parse_date es none = none)) ∧
    (∀ (ds ss es : List Char) (d s e : DT),
      parse_date ds none = some d → parse_date ss none = some s →
      parse_date es none = some e → dtLe s e = false →
      is_date_in_range ds ss es = some false) ∧
    is_date_in_range "15/02/2025".data "01/01/2025".data "28/02/2025".data
      = some true := by
  refine ⟨?_, ?_, ?_, by decide⟩
  · intro ds ss es d s e hd hs he
    unfold is_date_in_range parse_range
    rw [hd, hs, he]
  · intro ds ss es
    cases h1 : parse_date ds none <;> cases h2 : parse_date ss none <;>
      cases h3 : parse_date es none <;>
      simp [is_date_in_range, parse_range, h1, h2, h3]
  · intro ds ss es d s e hd hs he hrev
    unfold is_date_in_range parse_range
    rw [hd, hs, he]
    cases hsd : dtLe s d
    · simp [hsd]
    · cases hde : dtLe d e
      · simp [hsd, hde]
      · have hcontra := dtLe_trans s d e hsd hde
        rw [hrev] at hcontra
        exact absurd hcontra (by decide)

/-- Witness for C7: a reversed range (start 28 Feb, end 1 Jan) returns
`false` for 15 February rather than raising. -/
theorem C7_inRange_witness :
    dtLe ⟨2025, 2, 28⟩ ⟨2025, 1, 1⟩ = false ∧
    is_date_in_range "15/02/2025".data "28/02/2025".data "01/01/2025".data
      = some false :=
  ⟨by decide,
   C7_inRange.2.2.1 "15/02/2025".data "28/02/2025".data "01/01/2025".data
     ⟨2025, 2, 15⟩ ⟨2025, 2, 28⟩ ⟨2025, 1, 1⟩ (by decide) (by decide) (by decide)
     (by decide)⟩

